import Mathlib

/- Verification development for the run-aider session controller
   (src/run-aider.py): the credential-resolution engine, the selection
   wizard's navigation behaviour, and the command-argument builders,
   shallowly embedded as executable Lean definitions.  Interactive input
   is modelled by passing the operator's (already read) input strings to
   step functions; `os.environ` is modelled as an association list
   observed through lookup; `sys.exit` is modelled by explicit outcome
   values. -/

namespace RunAider

/-- Process environment (`os.environ`), observed only through `envGet`. -/
abbrev Env : Type := List (String × String)

/-- `os.environ.get(n)`. -/
def envGet (e : Env) (n : String) : Option String :=
  (e.find? (fun p => p.1 == n)).map (fun p => p.2)

/-- `os.environ[n] = v`; later bindings shadow earlier ones under `envGet`. -/
def envSet (e : Env) (n v : String) : Env := (n, v) :: e

/-- Python truthiness of `os.environ.get(n)`: present and non-empty. -/
def envTruthy (e : Env) (n : String) : Bool :=
  match envGet e n with
  | some v => v != ""
  | none => false

/-- Python `str.strip()`: whitespace removed from both ends. -/
def pyStrip (s : String) : String :=
  ((s.toList.dropWhile Char.isWhitespace).reverse.dropWhile Char.isWhitespace).reverse.asString

/-- Python `str.isdigit()` followed by `int(...)`: `some n` exactly when the
string is non-empty and all digits, in which case `n` is its decimal value. -/
def pyToNatDigits (s : String) : Option Nat :=
  let cs := s.toList
  if cs ≠ [] ∧ cs.all Char.isDigit then
    some (cs.foldl (fun acc c => acc * 10 + (c.toNat - 48)) 0)
  else none

/-- Python `str.startswith('#')`. -/
def startsWithHash (s : String) : Bool :=
  match s.toList with
  | '#' :: _ => true
  | _ => false

/-- Python `list.index(v)` on a list of strings (`none` models the
`ValueError` that callers turn into `-1`). -/
def listIndex (l : List String) (v : String) : Option Nat :=
  match l with
  | [] => none
  | x :: xs => if x = v then some 0 else (listIndex xs v).map (fun j => j + 1)

/-- One entry of `VENDOR_API_KEY_VARS`: a single variable name, or (GOOGLE
case, line 179) an ordered list of candidate names. -/
inductive ApiKeyVars where
  | single (name : String)
  | multi (names : List String)
deriving DecidableEq

/-- Per-vendor key-variable assignment performed by
`initialize_configuration` (lines 174-179). -/
def keyVarsFor (v : String) : ApiKeyVars :=
  if v = "GOOGLE" then .multi ["GEMINI_API_KEY", "GOOGLE_API_KEY"]
  else .single (v ++ "_API_KEY")

/-- `VENDOR_API_KEY_VARS` as derived from the vendor list. -/
def mkApiKeyVars (vendors : List String) : List ApiKeyVars :=
  vendors.map keyVarsFor

/-- Inner loop of `_load_keys_from_env` for a multi-name vendor
(lines 200-213): the first truthy candidate wins; when the winning name is
the legacy `GOOGLE_API_KEY` and the primary `GEMINI_API_KEY` is not truthy,
the primary name is also populated.  Returns the updated environment and
whether a key was found. -/
def loadEnvMulti (env : Env) : List String → Env × Bool
  | [] => (env, false)
  | var :: rest =>
    if envTruthy env var then
      let env' :=
        if var = "GOOGLE_API_KEY" ∧ envTruthy env "GEMINI_API_KEY" = false then
          envSet env "GEMINI_API_KEY" ((envGet env "GOOGLE_API_KEY").getD "")
        else env
      (env', true)
    else loadEnvMulti env rest

/-- One vendor of `_load_keys_from_env` (lines 197-225): environment and the
source string ("env" or "unset") for this vendor. -/
def loadKeysFromEnvVendor (env : Env) : ApiKeyVars → Env × String
  | .multi names =>
    let r := loadEnvMulti env names
    (r.1, if r.2 then "env" else "unset")
  | .single v => (env, if envTruthy env v then "env" else "unset")

/-- `_load_keys_from_env` (lines 190-232): the environment pass over all
vendors, returning the updated environment and `VENDOR_KEY_SOURCE`. -/
def loadKeysFromEnv (env : Env) : List ApiKeyVars → Env × List String
  | [] => (env, [])
  | vs :: rest =>
    let r := loadKeysFromEnvVendor env vs
    let r' := loadKeysFromEnv r.1 rest
    (r'.1, r.2 :: r'.2)

/-- Word characters of the pattern on line 272. -/
def isWordChar (c : Char) : Bool := c.isAlphanum || c == '_'

/-- The `NAME=value` line pattern of `_load_keys_from_file` (line 272):
one-or-more word characters, `=`, then the value with one optional leading
and one optional trailing quote character stripped. -/
def parseKeyLine (line : String) : Option (String × String) :=
  let s := line.toList
  let name := s.takeWhile isWordChar
  let rest := s.dropWhile isWordChar
  if name.isEmpty then none
  else
    match rest with
    | '=' :: valPart =>
      let v1 :=
        match valPart with
        | c :: t => if c == '"' || c == '\'' then t else valPart
        | [] => []
      let v2 :=
        match v1.getLast? with
        | some c => if c == '"' || c == '\'' then v1.dropLast else v1
        | none => v1
      some (name.asString, v2.asString)
    | _ => none

/-- Index of the first vendor whose key-variable entry mentions `name`
(the matching loop of `_load_keys_from_file`, lines 280-300). -/
def findVendorVarIdx (varsList : List ApiKeyVars) (name : String) : Option Nat :=
  match varsList with
  | [] => none
  | .single v :: rest =>
    if v = name then some 0 else (findVendorVarIdx rest name).map (fun j => j + 1)
  | .multi ns :: rest =>
    if name ∈ ns then some 0 else (findVendorVarIdx rest name).map (fun j => j + 1)

/-- One line of `_load_keys_from_file` (lines 266-300): blank and `#` lines
are skipped; a recognised assignment always writes the environment, and
marks the vendor's source `"file"` only when it was still `"unset"`. -/
def processKeyLine (varsList : List ApiKeyVars) (st : Env × List String) (line : String) : Env × List String :=
  let l := pyStrip line
  if l = "" then st
  else if startsWithHash l then st
  else
    match parseKeyLine l with
    | none => st
    | some nv =>
      match findVendorVarIdx varsList nv.1 with
      | none => st
      | some i =>
        let sources' := if st.2.getD i "unset" = "unset" then st.2.set i "file" else st.2
        (envSet st.1 nv.1 nv.2, sources')

/-- `_load_keys_from_file` (lines 254-306) over the file's lines. -/
def loadKeysFromFile (varsList : List ApiKeyVars) (env : Env) (sources : List String) (fileLines : List String) : Env × List String :=
  fileLines.foldl (processKeyLine varsList) (env, sources)

/-- The configuration loaded by `initialize_configuration` (validated by
`validate_json_structure`): vendor list, per-vendor model lists and the two
edit-format lists. -/
structure Cfg where
  vendors : List String
  models : List (String × List String)
  codeFormats : List String
  archFormats : List String

/-- Session state after `load_api_keys`: the environment and the per-vendor
`VENDOR_KEY_SOURCE` list, read-only during the wizard. -/
structure Sess where
  env : Env
  sources : List String

/-- Result of `check_api_key`: `exitProcess c` models `sys.exit(c)`. -/
inductive CheckOutcome where
  | ok
  | exitProcess (code : Nat)
deriving DecidableEq

/-- `check_api_key` (lines 331-381): exits the process with status 1 when
the vendor is unknown, when no key variable is truthy, or when the recorded
source is `"unset"`; otherwise control returns to the caller. -/
def checkApiKeyOutcome (cfg : Cfg) (sess : Sess) (vendor : String) : CheckOutcome :=
  match listIndex cfg.vendors vendor with
  | none => .exitProcess 1
  | some i =>
    let vars := (mkApiKeyVars cfg.vendors).getD i (.single "")
    let keySource := sess.sources.getD i "unset"
    let apiKeySet :=
      match vars with
      | .single v => envTruthy sess.env v
      | .multi names => names.any (envTruthy sess.env)
    if apiKeySet = false ∨ keySource = "unset" then .exitProcess 1 else .ok

/-- The vendor filter of `select_entity` (line 395): only vendors whose key
source is not `"unset"` are offered.  (Python iterates `enumerate(VENDORS)`
indexing `VENDOR_KEY_SOURCE`; the two lists have equal length by
construction, so the positional pairing is a `zip`.) -/
def availableVendors (cfg : Cfg) (sess : Sess) : List String :=
  ((cfg.vendors.zip sess.sources).filter (fun p => p.2 != "unset")).map (fun p => p.1)

/-- `VENDOR_MODELS.get(vendor, [])` (line 408). -/
def modelsOf (cfg : Cfg) (v : String) : List String :=
  ((cfg.models.find? (fun p => p.1 == v)).map (fun p => p.2)).getD []

/-- Input interpretation of `select_entity` (lines 424-479).  The entity list
shown by the menu is computed separately (`availableVendors` / `modelsOf`).
The Python sentinel values of the global `SELECT_RESULT` are kept as they
are in the source: `none` is "back" (`None`), `some "invalid"` re-prompts
the same step, and `some "default"` is the editor reuse-main sentinel
(offered as choice 9, only for the editor vendor menu, before numeric
interpretation). -/
def selectEntityChoice (entityType roleLabel : String) (entities : List String) (input : String) : Option String :=
  let choice := pyStrip input
  if entities.length = 0 then
    if choice = "" ∨ choice = "0" then none else some "invalid"
  else if choice = "" ∨ choice = "0" then none
  else if entityType = "vendor" ∧ roleLabel = "Editor" ∧ choice = "9" then some "default"
  else
    match pyToNatDigits choice with
    | some n => if 1 ≤ n ∧ n ≤ entities.length then some (entities.getD (n - 1) "") else some "invalid"
    | none => some "invalid"

/-- Input interpretation of `select_edit_format` (lines 502-534); display
option 1 is the "Default (Aider chooses)" sentinel, stored as the string
`"default"`, options 2..N+1 are the configured formats. -/
def selectEditFormatChoice (formats : List String) (input : String) : Option String :=
  let choice := pyStrip input
  if choice = "" ∨ choice = "0" then none
  else
    match pyToNatDigits choice with
    | some n =>
      if 1 ≤ n ∧ n ≤ formats.length + 1 then
        if n = 1 then some "default" else some (formats.getD (n - 2) "")
      else some "invalid"
    | none => some "invalid"

/-- First truthy candidate's value (the loop of `_get_api_key_value`,
lines 550-554). -/
def firstTruthyVal (env : Env) : List String → Option String
  | [] => none
  | v :: vs => if envTruthy env v then envGet env v else firstTruthyVal env vs

/-- `_get_api_key_value` (lines 544-560). -/
def getApiKeyValue (cfg : Cfg) (env : Env) (vendor : String) : Option String :=
  match listIndex cfg.vendors vendor with
  | none => none
  | some i =>
    match (mkApiKeyVars cfg.vendors).getD i (.single "") with
    | .multi names => firstTruthyVal env names
    | .single v => envGet env v

/-- `_build_main_model_args` (lines 563-613): the `--model` flag always,
plus the vendor-specific credential flag only when the vendor's key source
is `"file"` and the resolved key variable holds a truthy value. -/
def buildMainModelArgs (cfg : Cfg) (sess : Sess) (mainVendor mainModel : String) : List String :=
  let args := ["--model", mainModel]
  match listIndex cfg.vendors mainVendor with
  | none => args
  | some i =>
    if sess.sources.getD i "unset" = "file" then
      let apiKeyVarName : Option String :=
        match (mkApiKeyVars cfg.vendors).getD i (.single "") with
        | .multi _ =>
          if envTruthy sess.env "GEMINI_API_KEY" then some "GEMINI_API_KEY"
          else if envTruthy sess.env "GOOGLE_API_KEY" then some "GOOGLE_API_KEY"
          else none
        | .single v => some v
      match apiKeyVarName with
      | none => args
      | some name =>
        match envGet sess.env name with
        | none => args
        | some value =>
          if value = "" then args
          else if mainVendor = "GOOGLE" then args ++ ["--api-key", "google=" ++ value]
          else if mainVendor = "ANTHROPIC" then args ++ ["--anthropic-api-key", value]
          else if mainVendor = "OPENAI" then args ++ ["--openai-api-key", value]
          else if mainVendor = "DEEPSEEK" then args ++ ["--deepseek-api-key", value]
          else args
    else args

/-- `_build_architect_args` (lines 615-661): `--architect`, the editor model
when one was explicitly chosen, and the editor vendor's credential flag
only when the editor vendor differs from both the `"default"` sentinel and
the main vendor, its key source is `"file"`, and its key value is truthy.
`editorVendor`/`editorModel` are `Option` because Python passes `None` for
them in code mode. -/
def buildArchitectArgs (cfg : Cfg) (sess : Sess) (editorVendor editorModel : Option String) (mainVendor : String) : List String :=
  let base := ["--architect"]
  match editorModel with
  | none => base
  | some em =>
    if em = "default" then base
    else
      let args2 := base ++ ["--editor-model", em]
      match editorVendor with
      | none => args2
      | some ev =>
        if ev = "default" ∨ ev = mainVendor then args2
        else
          match listIndex cfg.vendors ev with
          | none => args2
          | some j =>
            if sess.sources.getD j "unset" = "file" then
              match getApiKeyValue cfg sess.env ev with
              | none => args2
              | some k =>
                if k = "" then args2
                else if ev = "GOOGLE" then args2 ++ ["--api-key", "google=" ++ k]
                else if ev = "ANTHROPIC" then args2 ++ ["--anthropic-api-key", k]
                else if ev = "OPENAI" then args2 ++ ["--openai-api-key", k]
                else if ev = "DEEPSEEK" then args2 ++ ["--deepseek-api-key", k]
                else args2
            else args2

/-- `_build_code_args` (lines 663-668). -/
def buildCodeArgs : List String := ["--chat-mode", "code"]

/-- Control position inside `run_code_mode` (lines 802-853), carrying the
local variables fixed so far. -/
inductive CodePhase where
  | vendorSel
  | modelSel (mv : String)
  | formatSel (mv mm : String)
  | launchConfirm (mv mm fmt : String)
deriving DecidableEq

/-- Control position inside `run_architect_mode` (lines 856-936). -/
inductive ArchPhase where
  | vendorSel
  | modelSel (mv : String)
  | editorVendorSel (mv mm : String)
  | editorModelSel (mv mm ev : String)
  | formatSel (mv mm ev em : String)
  | launchConfirm (mv mm ev em fmt : String)
deriving DecidableEq

/-- Overall interactive state: the top-level mode menu of `main`
(lines 1034-1063), a position inside one of the two mode functions, or a
terminated process (`sys.exit`). -/
inductive MState where
  | modeMenu
  | inCode (p : CodePhase)
  | inArch (p : ArchPhase)
  | exited (code : Nat)
deriving DecidableEq

/-- One prompt/response step of the session, transcribed from `main`,
`run_code_mode`, `run_architect_mode` and the confirmation loop of
`launch_aider`.  `aiderOnPath` models the result of the pre-launch
`command -v aider` check (line 694); `aiderExit` models the exit code of a
launched aider process (line 763) — `launch_aider` returns to its caller
(and hence to the mode menu) for zero and non-zero exit codes alike.  The
prompts of `launch_aider` that only wait for Enter are not separate states;
the state reached once they are acknowledged is used directly. -/
def machStep (cfg : Cfg) (sess : Sess) (aiderOnPath : Bool) (aiderExit : Int) : MState → String → MState
  | .exited c, _ => .exited c
  | .modeMenu, input =>
    -- display_mode_selection_menu / main loop: `choice.strip() or "0"`.
    let c := pyStrip input
    let choice := if c = "" then "0" else c
    if choice = "1" then .inCode .vendorSel
    else if choice = "2" then .inArch .vendorSel
    else if choice = "0" then .exited 0
    else .modeMenu
  | .inCode .vendorSel, input =>
    let r := selectEntityChoice "vendor" "Code" (availableVendors cfg sess) input
    if r = some "invalid" then .inCode .vendorSel
    else
      match r with
      | none => .modeMenu
      | some v =>
        match checkApiKeyOutcome cfg sess v with
        | .ok => .inCode (.modelSel v)
        | .exitProcess c => .exited c
  | .inCode (.modelSel mv), input =>
    let r := selectEntityChoice "model" "Code" (modelsOf cfg mv) input
    if r = some "invalid" then .inCode (.modelSel mv)
    else
      match r with
      | none => .modeMenu
      | some m => .inCode (.formatSel mv m)
  | .inCode (.formatSel mv mm), input =>
    let r := selectEditFormatChoice cfg.codeFormats input
    if r = some "invalid" then .inCode (.formatSel mv mm)
    else
      match r with
      | none => .modeMenu
      | some f => if aiderOnPath then .inCode (.launchConfirm mv mm f) else .modeMenu
  | .inCode (.launchConfirm mv mm fmt), input =>
    -- launch_aider confirmation loop: `input(...).strip() or "1"` (line 755).
    let c := pyStrip input
    let choice := if c = "" then "1" else c
    if choice = "1" then .modeMenu
    else if choice = "2" then .inCode (.formatSel mv mm)
    else if choice = "0" then .modeMenu
    else .inCode (.launchConfirm mv mm fmt)
  | .inArch .vendorSel, input =>
    let r := selectEntityChoice "vendor" "Architect" (availableVendors cfg sess) input
    if r = some "invalid" then .inArch .vendorSel
    else
      match r with
      | none => .modeMenu
      | some v =>
        match checkApiKeyOutcome cfg sess v with
        | .ok => .inArch (.modelSel v)
        | .exitProcess c => .exited c
  | .inArch (.modelSel mv), input =>
    let r := selectEntityChoice "model" "Architect" (modelsOf cfg mv) input
    if r = some "invalid" then .inArch (.modelSel mv)
    else
      match r with
      | none => .modeMenu
      | some m => .inArch (.editorVendorSel mv m)
  | .inArch (.editorVendorSel mv mm), input =>
    let r := selectEntityChoice "vendor" "Editor" (availableVendors cfg sess) input
    if r = some "invalid" then .inArch (.editorVendorSel mv mm)
    else
      match r with
      | none => .modeMenu
      | some ev =>
        if ev = "default" then .inArch (.formatSel mv mm "default" "default")
        else
          match checkApiKeyOutcome cfg sess ev with
          | .ok => .inArch (.editorModelSel mv mm ev)
          | .exitProcess c => .exited c
  | .inArch (.editorModelSel mv mm ev), input =>
    let r := selectEntityChoice "model" "Editor" (modelsOf cfg ev) input
    if r = some "invalid" then .inArch (.editorModelSel mv mm ev)
    else
      match r with
      | none => .modeMenu
      | some em => .inArch (.formatSel mv mm ev em)
  | .inArch (.formatSel mv mm ev em), input =>
    let r := selectEditFormatChoice cfg.archFormats input
    if r = some "invalid" then .inArch (.formatSel mv mm ev em)
    else
      match r with
      | none => .modeMenu
      | some f => if aiderOnPath then .inArch (.launchConfirm mv mm ev em f) else .modeMenu
  | .inArch (.launchConfirm mv mm ev em fmt), input =>
    let c := pyStrip input
    let choice := if c = "" then "1" else c
    if choice = "1" then .modeMenu
    else if choice = "2" then .inArch (.formatSel mv mm ev em)
    else if choice = "0" then .modeMenu
    else .inArch (.launchConfirm mv mm ev em fmt)

/-- Run the session machine over a list of operator inputs. -/
def machRun (cfg : Cfg) (sess : Sess) (aiderOnPath : Bool) (aiderExit : Int) : MState → List String → MState
  | s, [] => s
  | s, i :: rest => machRun cfg sess aiderOnPath aiderExit (machStep cfg sess aiderOnPath aiderExit s i) rest

/-- All states visited while running the machine (start state included). -/
def machTraceStates (cfg : Cfg) (sess : Sess) (aiderOnPath : Bool) (aiderExit : Int) : MState → List String → List MState
  | s, [] => [s]
  | s, i :: rest => s :: machTraceStates cfg sess aiderOnPath aiderExit (machStep cfg sess aiderOnPath aiderExit s i) rest

/-- The (main vendor, main model) fields visible in the code-mode
format-selection/launch-confirmation loop, `none` outside it. -/
def codeLoopCore : MState → Option (String × String)
  | .inCode (.formatSel mv mm) => some (mv, mm)
  | .inCode (.launchConfirm mv mm _) => some (mv, mm)
  | _ => none

/-- The (main vendor, main model, editor vendor, editor model) fields
visible in the architect-mode format-selection/launch-confirmation loop,
`none` outside it. -/
def archLoopCore : MState → Option (String × String × String × String)
  | .inArch (.formatSel mv mm ev em) => some (mv, mm, ev, em)
  | .inArch (.launchConfirm mv mm ev em _) => some (mv, mm, ev, em)
  | _ => none

/-! ### Auxiliary lemmas about the embedding -/

lemma envGet_envSet_self (e : Env) (n v : String) : envGet (envSet e n v) n = some v := by
  simp [envGet, envSet]

lemma envTruthy_true_iff (e : Env) (n : String) :
    envTruthy e n = true ↔ ∃ v, envGet e n = some v ∧ v ≠ "" := by
  unfold envTruthy
  cases h : envGet e n <;> simp [h]

lemma listIndex_get? : ∀ {l : List String} {v : String} {i : Nat},
    listIndex l v = some i → l.get? i = some v := by
  intro l
  induction l with
  | nil => intro v i h; simp [listIndex] at h
  | cons x xs ih =>
    intro v i h
    unfold listIndex at h
    by_cases hx : x = v
    · rw [if_pos hx] at h
      obtain rfl : (0 : Nat) = i := Option.some.inj h
      simp [hx]
    · rw [if_neg hx] at h
      obtain ⟨j, hj, rfl⟩ := Option.map_eq_some'.mp h
      simpa using ih hj

lemma mkApiKeyVars_getD : ∀ {l : List String} {i : Nat} {v : String},
    l.get? i = some v → (mkApiKeyVars l).getD i (ApiKeyVars.single "") = keyVarsFor v := by
  intro l
  induction l with
  | nil => intro i v h; simp at h
  | cons x xs ih =>
    intro i v h
    cases i with
    | zero =>
      obtain rfl : x = v := by simpa using h
      simp [mkApiKeyVars]
    | succ j =>
      have h' : xs.get? j = some v := by simpa using h
      simpa [mkApiKeyVars] using ih h'

lemma zip_get?_eq {α β : Type} : ∀ (l1 : List α) (l2 : List β) (i : Nat) (a : α) (b : β),
    (l1.zip l2).get? i = some (a, b) ↔ l1.get? i = some a ∧ l2.get? i = some b := by
  intro l1
  induction l1 with
  | nil => intro l2 i a b; simp
  | cons x xs ih =>
    intro l2 i a b
    cases l2 with
    | nil => simp
    | cons y ys =>
      cases i with
      | zero => simp [And.comm]
      | succ j => simpa using ih ys j a b

lemma selectEntityChoice_back (et rl : String) (es : List String) {input : String}
    (h : pyStrip input = "" ∨ pyStrip input = "0") :
    selectEntityChoice et rl es input = none := by
  rcases h with h | h <;> simp [selectEntityChoice, h]

lemma selectEditFormatChoice_back (formats : List String) {input : String}
    (h : pyStrip input = "" ∨ pyStrip input = "0") :
    selectEditFormatChoice formats input = none := by
  rcases h with h | h <;> simp [selectEditFormatChoice, h]

/-! ### Concrete configurations used by witnesses and counterexamples -/

/-- A concrete configuration in the shape `aider_config.json` prescribes. -/
def cfgEx : Cfg :=
  ⟨["GOOGLE", "ANTHROPIC", "OPENAI", "DEEPSEEK"],
   [("GOOGLE", ["gemini-pro"]), ("ANTHROPIC", ["claude-3-5"]),
    ("OPENAI", ["gpt-4o"]), ("DEEPSEEK", ["deepseek-chat"])],
   ["whole", "diff"],
   ["editor-whole", "editor-diff"]⟩

/-- A concrete session: ANTHROPIC key loaded from a file, OPENAI key from
the environment, GOOGLE and DEEPSEEK unavailable. -/
def sessEx : Sess :=
  ⟨[("ANTHROPIC_API_KEY", "sk-ant"), ("OPENAI_API_KEY", "sk-oai")],
   ["unset", "file", "env", "unset"]⟩

/-! ### Claim C9 -/

/-- Claim C9 (confirmed): at the editor-vendor menu the input `"9"` is
interpreted as the reuse-main sentinel before any numeric interpretation,
so even when nine or more vendors are offered, entering `"9"` yields the
sentinel and never the ninth vendor — in contrast with the same input at a
non-editor vendor menu, which selects the ninth entry. -/
theorem c9_editor_nine_is_sentinel (entities : List String) (h : 9 ≤ entities.length) :
    selectEntityChoice "vendor" "Editor" entities "9" = some "default" ∧
    selectEntityChoice "vendor" "Code" entities "9" = some (entities.getD 8 "") := by
  have hne : ¬ entities.length = 0 := by omega
  have h9 : pyStrip "9" = "9" := rfl
  have hto : pyToNatDigits "9" = some 9 := rfl
  constructor
  · simp [selectEntityChoice, hne, h9]
  · simp [selectEntityChoice, hne, h9, hto, h]

/-- Witness for C9 at a list of nine vendors. -/
theorem c9_witness :
    selectEntityChoice "vendor" "Editor" ["A", "B", "C", "D", "E", "F", "G", "H", "I"] "9" = some "default" ∧
    selectEntityChoice "vendor" "Code" ["A", "B", "C", "D", "E", "F", "G", "H", "I"] "9" =
      some (["A", "B", "C", "D", "E", "F", "G", "H", "I"].getD 8 "") :=
  c9_editor_nine_is_sentinel ["A", "B", "C", "D", "E", "F", "G", "H", "I"] (by decide)

/-! ### Claim C3 -/

/-- A config/session in which ANTHROPIC is configured but has no credential
anywhere: its resolved source is `"unset"`. -/
def cfgC3 : Cfg := ⟨["ANTHROPIC"], [("ANTHROPIC", ["claude-3-5"])], ["whole"], ["editor-whole"]⟩

def sessC3 : Sess := ⟨[], ["unset"]⟩

/-- Claim C3 counterexample: checking the credential of a vendor whose
resolved source is `"unset"` terminates the process (`sys.exit(1)`,
line 376) instead of returning control for a new vendor selection — the
claim's "never terminates the process" is false. -/
theorem c3_counterexample :
    checkApiKeyOutcome cfgC3 sessC3 "ANTHROPIC" = CheckOutcome.exitProcess 1 ∧
    CheckOutcome.exitProcess 1 ≠ CheckOutcome.ok := by
  decide

/-- Claim C3 (amended): selecting a vendor whose resolved credential source
is `"unset"` makes `check_api_key` print remediation guidance and terminate
the whole process with exit status 1; it does not return control to vendor
selection.  (Such a vendor is normally unreachable from the menus, which
filter `"unset"` vendors out.) -/
theorem c3_unset_vendor_exits (cfg : Cfg) (sess : Sess) (v : String) (i : Nat)
    (hi : listIndex cfg.vendors v = some i)
    (hs : sess.sources.getD i "unset" = "unset") :
    checkApiKeyOutcome cfg sess v = CheckOutcome.exitProcess 1 := by
  unfold checkApiKeyOutcome
  rw [hi]
  simp only []
  rw [if_pos (Or.inr hs)]

/-- Witness for C3's amended theorem at the concrete unset vendor. -/
theorem c3_witness : checkApiKeyOutcome cfgC3 sessC3 "ANTHROPIC" = CheckOutcome.exitProcess 1 :=
  c3_unset_vendor_exits cfgC3 sessC3 "ANTHROPIC" 0 rfl rfl

/-! ### Claim C7 -/

/-- Claim C7 (confirmed): an architect-mode build whose editor vendor
equals the main vendor, or is the reuse-main sentinel, contains no editor
credential flag whatever the credential sources are: the produced argument
list is exactly `["--architect"]`, possibly extended with the editor-model
flag pair, and nothing else. -/
theorem c7_no_editor_cred_flag (cfg : Cfg) (sess : Sess)
    (editorVendor editorModel : Option String) (mainVendor : String)
    (h : editorVendor = some "default" ∨ editorVendor = some mainVendor) :
    buildArchitectArgs cfg sess editorVendor editorModel mainVendor = ["--architect"] ∨
    ∃ m, editorModel = some m ∧
      buildArchitectArgs cfg sess editorVendor editorModel mainVendor =
        ["--architect", "--editor-model", m] := by
  unfold buildArchitectArgs
  cases editorModel with
  | none => exact Or.inl rfl
  | some em =>
    by_cases he : em = "default"
    · simp [he]
    · refine Or.inr ⟨em, rfl, ?_⟩
      rcases h with h | h <;> rw [h] <;> simp [he]

/-- Witness for C7: editor vendor equal to the (file-sourced) main vendor;
no editor credential flag is emitted. -/
theorem c7_witness :
    buildArchitectArgs cfgEx sessEx (some "ANTHROPIC") (some "claude-3-5") "ANTHROPIC" = ["--architect"] ∨
    ∃ m, (some "claude-3-5" : Option String) = some m ∧
      buildArchitectArgs cfgEx sessEx (some "ANTHROPIC") (some "claude-3-5") "ANTHROPIC" =
        ["--architect", "--editor-model", m] :=
  c7_no_editor_cred_flag cfgEx sessEx (some "ANTHROPIC") (some "claude-3-5") "ANTHROPIC" (Or.inr rfl)

/-! ### Claim C4 -/

/-- Claim C4 counterexample: the environment already binds
`ANTHROPIC_API_KEY` to `"envval"`; parsing a credentials file that also
defines that name overwrites the environment value with the file's
`"fileval"`, so file parsing does overwrite existing environment values. -/
theorem c4_counterexample :
    envGet (loadKeysFromFile (mkApiKeyVars ["ANTHROPIC"]) [("ANTHROPIC_API_KEY", "envval")]
        ["env"] ["ANTHROPIC_API_KEY=\"fileval\""]).1 "ANTHROPIC_API_KEY" = some "fileval" ∧
    some "fileval" ≠ some "envval" := by
  decide

/-- Claim C4 (amended): for every recognised credential-variable name the
file parser writes the file's value into the environment unconditionally —
overwriting an existing environment value as well; what is preserved for an
already-environment-satisfied vendor is only its reported source (the
`"file"` marking applies solely to vendors still `"unset"`). -/
theorem c4_file_write_unconditional (varsList : List ApiKeyVars) (env : Env)
    (sources : List String) (line n v : String) (i : Nat)
    (hp : parseKeyLine (pyStrip line) = some (n, v))
    (hh : startsWithHash (pyStrip line) = false)
    (hi : findVendorVarIdx varsList n = some i)
    (hs : sources.getD i "unset" = "env") :
    processKeyLine varsList (env, sources) line = (envSet env n v, sources) ∧
    envGet (envSet env n v) n = some v := by
  have hb : ¬ pyStrip line = "" := by
    intro hb
    rw [hb] at hp
    simp [parseKeyLine] at hp
  refine ⟨?_, envGet_envSet_self env n v⟩
  unfold processKeyLine
  rw [if_neg hb, if_neg (by simp [hh]), hp]
  dsimp only
  rw [hi]
  dsimp only
  have hs' : sources[i]?.getD "unset" = "env" := by
    rw [← List.getD_eq_getElem?_getD]
    exact hs
  rw [if_neg (by simp [hs'])]

/-- Witness for C4's amended theorem: a concrete recognised line for an
environment-satisfied vendor is written into the environment and the
source list is untouched. -/
theorem c4_witness :
    processKeyLine (mkApiKeyVars ["ANTHROPIC"]) ([("ANTHROPIC_API_KEY", "envval")], ["env"])
        "ANTHROPIC_API_KEY='filev2'" =
      (envSet [("ANTHROPIC_API_KEY", "envval")] "ANTHROPIC_API_KEY" "filev2", ["env"]) ∧
    envGet (envSet [("ANTHROPIC_API_KEY", "envval")] "ANTHROPIC_API_KEY" "filev2") "ANTHROPIC_API_KEY" =
      some "filev2" :=
  c4_file_write_unconditional (mkApiKeyVars ["ANTHROPIC"]) [("ANTHROPIC_API_KEY", "envval")]
    ["env"] "ANTHROPIC_API_KEY='filev2'" "ANTHROPIC_API_KEY" "filev2" 0 (by decide) (by decide)
    (by decide) (by decide)

/-! ### Claim C2 -/

/-- Claim C2 counterexample: entering back (`"0"`) at the code-mode model
selection step returns control to the top-level mode menu (the mode
function returns, lines 825-827), not to the vendor-selection step as the
claim requires — back does skip levels. -/
theorem c2_counterexample :
    machStep cfgEx sessEx true 0 (MState.inCode (CodePhase.modelSel "ANTHROPIC")) "0" = MState.modeMenu ∧
    MState.modeMenu ≠ MState.inCode CodePhase.vendorSel := by
  decide

/-- Claim C2 (amended): entering back (empty input or `"0"`) at the first
wizard step returns to the top-level mode menu, as claimed — but at every
later selection step (model, editor vendor, editor model, edit format, in
both modes) it also returns all the way to the top-level mode menu, not to
the immediately preceding step; `"0"` at the launch-confirmation step
likewise returns to the mode menu.  The only single-step backward edge is
the launch-confirmation option `"2"` back to format selection. -/
theorem c2_back_returns_to_menu (cfg : Cfg) (sess : Sess) (aE : Bool) (aX : Int)
    (input : String) (h : pyStrip input = "" ∨ pyStrip input = "0") :
    machStep cfg sess aE aX (MState.inCode CodePhase.vendorSel) input = MState.modeMenu ∧
    (∀ mv, machStep cfg sess aE aX (MState.inCode (CodePhase.modelSel mv)) input = MState.modeMenu) ∧
    (∀ mv mm, machStep cfg sess aE aX (MState.inCode (CodePhase.formatSel mv mm)) input = MState.modeMenu) ∧
    machStep cfg sess aE aX (MState.inArch ArchPhase.vendorSel) input = MState.modeMenu ∧
    (∀ mv, machStep cfg sess aE aX (MState.inArch (ArchPhase.modelSel mv)) input = MState.modeMenu) ∧
    (∀ mv mm, machStep cfg sess aE aX (MState.inArch (ArchPhase.editorVendorSel mv mm)) input = MState.modeMenu) ∧
    (∀ mv mm ev, machStep cfg sess aE aX (MState.inArch (ArchPhase.editorModelSel mv mm ev)) input = MState.modeMenu) ∧
    (∀ mv mm ev em, machStep cfg sess aE aX (MState.inArch (ArchPhase.formatSel mv mm ev em)) input = MState.modeMenu) ∧
    (∀ mv mm fmt, machStep cfg sess aE aX (MState.inCode (CodePhase.launchConfirm mv mm fmt)) "0" = MState.modeMenu) ∧
    (∀ mv mm ev em fmt, machStep cfg sess aE aX (MState.inArch (ArchPhase.launchConfirm mv mm ev em fmt)) "0" = MState.modeMenu) := by
  have hsel : ∀ et rl es, selectEntityChoice et rl es input = none :=
    fun et rl es => selectEntityChoice_back et rl es h
  have hfmt : ∀ fs, selectEditFormatChoice fs input = none :=
    fun fs => selectEditFormatChoice_back fs h
  have h0 : pyStrip "0" = "0" := rfl
  refine ⟨?_, ?_, ?_, ?_, ?_, ?_, ?_, ?_, ?_, ?_⟩ <;>
    intros <;> simp [machStep, hsel, hfmt, h0]

/-- Witness for C2's amended theorem at the input `"0"` and a concrete
configuration (one representative conjunct of each kind). -/
theorem c2_witness :
    machStep cfgEx sessEx true 0 (MState.inCode CodePhase.vendorSel) "0" = MState.modeMenu ∧
    machStep cfgEx sessEx true 0 (MState.inArch (ArchPhase.editorVendorSel "ANTHROPIC" "claude-3-5")) "0" = MState.modeMenu ∧
    machStep cfgEx sessEx true 0 (MState.inCode (CodePhase.launchConfirm "ANTHROPIC" "claude-3-5" "whole")) "0" = MState.modeMenu := by
  have h := c2_back_returns_to_menu cfgEx sessEx true 0 "0" (Or.inr rfl)
  exact ⟨h.1, h.2.2.2.2.2.1 "ANTHROPIC" "claude-3-5", h.2.2.2.2.2.2.2.2.1 "ANTHROPIC" "claude-3-5" "whole"⟩

/-! ### Claim C6 -/

/-- Claim C6 counterexample: with the external tool absent from the path,
confirming a format selection returns control to the mode menu; and with
the tool present but exiting with the non-zero code 7, launching likewise
returns to the mode menu — in neither case does the process terminate with
exit status 1. -/
theorem c6_counterexample :
    machStep cfgEx sessEx false 0 (MState.inCode (CodePhase.formatSel "ANTHROPIC" "claude-3-5")) "2" = MState.modeMenu ∧
    machStep cfgEx sessEx true 7 (MState.inCode (CodePhase.launchConfirm "ANTHROPIC" "claude-3-5" "whole")) "1" = MState.modeMenu ∧
    MState.modeMenu ≠ MState.exited 1 := by
  decide

/-- Claim C6 (amended): a normal quit from the mode menu terminates the
process with exit status 0, as claimed; but a missing external tool or a
launched invocation returning a non-zero exit code does not terminate the
process — `launch_aider` returns 1 to the mode function, which returns to
the top-level menu loop.  (Process exit status 1 is reserved for
configuration loading and credential-check failures.) -/
theorem c6_launch_failures_return_to_menu :
    (∀ (cfg : Cfg) (sess : Sess) (aE : Bool) (aX : Int) (input : String),
      pyStrip input = "" ∨ pyStrip input = "0" →
      machStep cfg sess aE aX MState.modeMenu input = MState.exited 0) ∧
    (∀ (cfg : Cfg) (sess : Sess) (aX : Int) (mv mm input : String),
      machStep cfg sess false aX (MState.inCode (CodePhase.formatSel mv mm)) input = MState.inCode (CodePhase.formatSel mv mm) ∨
      machStep cfg sess false aX (MState.inCode (CodePhase.formatSel mv mm)) input = MState.modeMenu) ∧
    (∀ (cfg : Cfg) (sess : Sess) (aE : Bool) (aX : Int) (mv mm fmt : String),
      aX ≠ 0 →
      machStep cfg sess aE aX (MState.inCode (CodePhase.launchConfirm mv mm fmt)) "1" = MState.modeMenu) := by
  refine ⟨?_, ?_, ?_⟩
  · intro cfg sess aE aX input h
    rcases h with h | h <;> simp [machStep, h]
  · intro cfg sess aX mv mm input
    cases hr : selectEditFormatChoice cfg.codeFormats input with
    | none => right; simp [machStep, hr]
    | some f =>
      by_cases hf : f = "invalid"
      · left; simp [machStep, hr, hf]
      · right; simp [machStep, hr, hf]
  · intro cfg sess aE aX mv mm fmt hx
    have h1 : pyStrip "1" = "1" := rfl
    simp [machStep, h1]

/-- Witness for C6's amended theorem at concrete inputs. -/
theorem c6_witness :
    machStep cfgEx sessEx true 7 MState.modeMenu "" = MState.exited 0 ∧
    (machStep cfgEx sessEx false 0 (MState.inCode (CodePhase.formatSel "ANTHROPIC" "claude-3-5")) "1" = MState.inCode (CodePhase.formatSel "ANTHROPIC" "claude-3-5") ∨
     machStep cfgEx sessEx false 0 (MState.inCode (CodePhase.formatSel "ANTHROPIC" "claude-3-5")) "1" = MState.modeMenu) ∧
    machStep cfgEx sessEx true 7 (MState.inCode (CodePhase.launchConfirm "ANTHROPIC" "claude-3-5" "whole")) "1" = MState.modeMenu :=
  ⟨c6_launch_failures_return_to_menu.1 cfgEx sessEx true 7 "" (Or.inl rfl),
   c6_launch_failures_return_to_menu.2.1 cfgEx sessEx 0 "ANTHROPIC" "claude-3-5" "1",
   c6_launch_failures_return_to_menu.2.2 cfgEx sessEx true 7 "ANTHROPIC" "claude-3-5" "whole" (by decide)⟩

/-! ### Claim C5 -/

/-- Claim C5 (confirmed): with the configured vendor list, when only the
legacy `GOOGLE_API_KEY` is truthy in the environment at resolution time
(the primary `GEMINI_API_KEY` is absent or empty), the environment pass of
the resolver also sets `GEMINI_API_KEY` to the legacy value and reports
GOOGLE's credential source as `"env"` (the code's encoding of
"environment"). -/
theorem c5_legacy_google_populates_primary (env : Env) (k : String) (hk : k ≠ "")
    (hg : envGet env "GOOGLE_API_KEY" = some k)
    (hng : envTruthy env "GEMINI_API_KEY" = false) :
    envGet (loadKeysFromEnv env (mkApiKeyVars ["GOOGLE", "ANTHROPIC", "OPENAI", "DEEPSEEK"])).1
        "GEMINI_API_KEY" = some k ∧
    (loadKeysFromEnv env (mkApiKeyVars ["GOOGLE", "ANTHROPIC", "OPENAI", "DEEPSEEK"])).2.get? 0 =
      some "env" := by
  have ht : envTruthy env "GOOGLE_API_KEY" = true := by
    unfold envTruthy
    rw [hg]
    simp [hk]
  simp [mkApiKeyVars, keyVarsFor, loadKeysFromEnv, loadKeysFromEnvVendor, loadEnvMulti,
    hng, ht, hg, envGet_envSet_self]

/-- Witness for C5 at a concrete environment holding only the legacy
variable. -/
theorem c5_witness :
    envGet (loadKeysFromEnv [("GOOGLE_API_KEY", "AIza-x")]
        (mkApiKeyVars ["GOOGLE", "ANTHROPIC", "OPENAI", "DEEPSEEK"])).1 "GEMINI_API_KEY" =
      some "AIza-x" ∧
    (loadKeysFromEnv [("GOOGLE_API_KEY", "AIza-x")]
        (mkApiKeyVars ["GOOGLE", "ANTHROPIC", "OPENAI", "DEEPSEEK"])).2.get? 0 = some "env" :=
  c5_legacy_google_populates_primary [("GOOGLE_API_KEY", "AIza-x")] "AIza-x" (by decide) rfl rfl

/-! ### Claim C8 -/

/-- Claim C8 (confirmed): (a) the vendor menu offers exactly the vendors at
positions whose recorded key source is not `"unset"`; (b) with no
qualifying vendor the menu's only outcomes are back and invalid-reprompt;
(c) any value actually chosen at a selection menu is one of the offered
entities (or one of the source's sentinel strings `"invalid"` /
editor-menu `"default"`), so a model menu can only ever be reached for a
vendor holding an active credential. -/
theorem c8_only_credentialed_vendors_offered :
    (∀ (cfg : Cfg) (sess : Sess) (v : String),
      v ∈ availableVendors cfg sess ↔
        ∃ i, cfg.vendors.get? i = some v ∧ ∃ s, sess.sources.get? i = some s ∧ s ≠ "unset") ∧
    (∀ et rl input, selectEntityChoice et rl [] input = none ∨
      selectEntityChoice et rl [] input = some "invalid") ∧
    (∀ et rl es input v, selectEntityChoice et rl es input = some v →
      v = "invalid" ∨ (et = "vendor" ∧ rl = "Editor" ∧ v = "default") ∨ v ∈ es) := by
  refine ⟨?_, ?_, ?_⟩
  · intro cfg sess v
    unfold availableVendors
    constructor
    · intro hv
      obtain ⟨p, hpf, hp1⟩ := List.mem_map.mp hv
      obtain ⟨hpz, hpne⟩ := List.mem_filter.mp hpf
      obtain ⟨i, hpi⟩ := List.mem_iff_get?.mp hpz
      obtain ⟨h1, h2⟩ := (zip_get?_eq cfg.vendors sess.sources i p.1 p.2).mp (by simpa using hpi)
      exact ⟨i, by rw [← hp1]; exact h1, p.2, h2, by simpa using hpne⟩
    · rintro ⟨i, h1, s, h2, hne⟩
      refine List.mem_map.mpr ⟨(v, s), List.mem_filter.mpr ⟨?_, by simpa using hne⟩, rfl⟩
      exact List.mem_iff_get?.mpr ⟨i, (zip_get?_eq cfg.vendors sess.sources i v s).mpr ⟨h1, h2⟩⟩
  · intro et rl input
    by_cases h : pyStrip input = "" ∨ pyStrip input = "0" <;> simp [selectEntityChoice, h]
  · intro et rl es input v hsel
    unfold selectEntityChoice at hsel
    by_cases h0 : es.length = 0
    · rw [if_pos h0] at hsel
      by_cases hb : pyStrip input = "" ∨ pyStrip input = "0"
      · rw [if_pos hb] at hsel; cases hsel
      · rw [if_neg hb] at hsel
        exact Or.inl (Option.some.inj hsel).symm
    · rw [if_neg h0] at hsel
      by_cases hb : pyStrip input = "" ∨ pyStrip input = "0"
      · rw [if_pos hb] at hsel; cases hsel
      · rw [if_neg hb] at hsel
        by_cases hed : et = "vendor" ∧ rl = "Editor" ∧ pyStrip input = "9"
        · rw [if_pos hed] at hsel
          exact Or.inr (Or.inl ⟨hed.1, hed.2.1, (Option.some.inj hsel).symm⟩)
        · rw [if_neg hed] at hsel
          cases hn : pyToNatDigits (pyStrip input) with
          | none => rw [hn] at hsel; exact Or.inl (Option.some.inj hsel).symm
          | some n =>
            rw [hn] at hsel
            dsimp only at hsel
            by_cases hr : 1 ≤ n ∧ n ≤ es.length
            · rw [if_pos hr] at hsel
              refine Or.inr (Or.inr ?_)
              have hlt : n - 1 < es.length := by omega
              rw [← Option.some.inj hsel]
              have := List.getD_eq_getElem?_getD es (n - 1) ""
              rw [this, List.getElem?_eq_getElem hlt]
              exact List.getElem_mem hlt
            · rw [if_neg hr] at hsel
              exact Or.inl (Option.some.inj hsel).symm

/-- Witness for C8 at a concrete configuration: OPENAI (source `"env"`) is
offered; an empty menu only re-prompts; a numeric pick returns an offered
entity. -/
theorem c8_witness :
    ("OPENAI" ∈ availableVendors cfgEx sessEx) ∧
    (selectEntityChoice "model" "Code" [] "5" = none ∨
     selectEntityChoice "model" "Code" [] "5" = some "invalid") ∧
    ("claude-3-5" = "invalid" ∨ ("model" = "vendor" ∧ "Code" = "Editor" ∧ "claude-3-5" = "default") ∨
      "claude-3-5" ∈ ["claude-3-5"]) :=
  ⟨(c8_only_credentialed_vendors_offered.1 cfgEx sessEx "OPENAI").mpr
      ⟨2, rfl, "env", rfl, by decide⟩,
   c8_only_credentialed_vendors_offered.2.1 "model" "Code" "5",
   c8_only_credentialed_vendors_offered.2.2 "model" "Code" ["claude-3-5"] "1" "claude-3-5" (by decide)⟩

/-! ### Claim C1 -/

/-- The per-vendor credential flag name and value encoding that claim C1
(spec §4.3) prescribes: GOOGLE uses the shared `--api-key` flag with a
`google=<key>` composite value; the other known vendors use a
vendor-specific flag name with the raw key value. -/
def credFlagEncoding (v k : String) : List String :=
  if v = "GOOGLE" then ["--api-key", "google=" ++ k]
  else if v = "ANTHROPIC" then ["--anthropic-api-key", k]
  else if v = "OPENAI" then ["--openai-api-key", k]
  else if v = "DEEPSEEK" then ["--deepseek-api-key", k]
  else []

/-- Claim C1 (confirmed): for a completed selection (`check_api_key`
passed) of one of the vendors with a flag mapping, the built main-model
argument list is exactly `["--model", model]` followed by exactly one
credential flag in the vendor's encoding when the vendor's key source is
`"file"`, and exactly `["--model", model]` with no credential flag when
the source is `"env"` (the code's encoding of "environment"). -/
theorem c1_main_credential_flag (cfg : Cfg) (sess : Sess) (mv mm : String) (i : Nat)
    (hi : listIndex cfg.vendors mv = some i)
    (hknown : mv = "GOOGLE" ∨ mv = "ANTHROPIC" ∨ mv = "OPENAI" ∨ mv = "DEEPSEEK")
    (hcheck : checkApiKeyOutcome cfg sess mv = CheckOutcome.ok) :
    (sess.sources.getD i "unset" = "file" →
      ∃ k, k ≠ "" ∧
        buildMainModelArgs cfg sess mv mm = ["--model", mm] ++ credFlagEncoding mv k) ∧
    (sess.sources.getD i "unset" = "env" →
      buildMainModelArgs cfg sess mv mm = ["--model", mm]) := by
  have hv : cfg.vendors.get? i = some mv := listIndex_get? hi
  have hkv : (mkApiKeyVars cfg.vendors).getD i (ApiKeyVars.single "") = keyVarsFor mv :=
    mkApiKeyVars_getD hv
  have hkvE : (mkApiKeyVars cfg.vendors)[i]?.getD (ApiKeyVars.single "") = keyVarsFor mv := by
    rw [← List.getD_eq_getElem?_getD]
    exact hkv
  unfold checkApiKeyOutcome at hcheck
  rw [hi] at hcheck
  dsimp only at hcheck
  rw [hkv] at hcheck
  constructor
  · intro hf
    have hfE : sess.sources[i]?.getD "unset" = "file" := by
      rw [← List.getD_eq_getElem?_getD]
      exact hf
    rcases hknown with h | h | h | h <;> subst h
    · -- GOOGLE: multi-name vendor
      have hkv' : (mkApiKeyVars cfg.vendors)[i]?.getD (ApiKeyVars.single "") =
          ApiKeyVars.multi ["GEMINI_API_KEY", "GOOGLE_API_KEY"] := hkvE.trans rfl
      rw [show keyVarsFor "GOOGLE" = ApiKeyVars.multi ["GEMINI_API_KEY", "GOOGLE_API_KEY"] from rfl] at hcheck
      dsimp only at hcheck
      by_cases hc : (["GEMINI_API_KEY", "GOOGLE_API_KEY"].any (envTruthy sess.env)) = false ∨
          sess.sources.getD i "unset" = "unset"
      · rw [if_pos hc] at hcheck; simp at hcheck
      · push_neg at hc
        have hany : (["GEMINI_API_KEY", "GOOGLE_API_KEY"].any (envTruthy sess.env)) = true := by
          cases h' : ["GEMINI_API_KEY", "GOOGLE_API_KEY"].any (envTruthy sess.env) with
          | true => rfl
          | false => exact absurd h' hc.1
        have hdisj : envTruthy sess.env "GEMINI_API_KEY" = true ∨
            envTruthy sess.env "GOOGLE_API_KEY" = true := by simpa using hany
        by_cases h1 : envTruthy sess.env "GEMINI_API_KEY" = true
        · obtain ⟨k, hek, hkne⟩ := (envTruthy_true_iff sess.env "GEMINI_API_KEY").mp h1
          refine ⟨k, hkne, ?_⟩
          simp [buildMainModelArgs, hi, hkv', hfE, h1, hek, hkne, credFlagEncoding]
        · have h2 : envTruthy sess.env "GOOGLE_API_KEY" = true := hdisj.resolve_left h1
          obtain ⟨k, hek, hkne⟩ := (envTruthy_true_iff sess.env "GOOGLE_API_KEY").mp h2
          refine ⟨k, hkne, ?_⟩
          simp [buildMainModelArgs, hi, hkv', hfE, h1, h2, hek, hkne, credFlagEncoding]
    · -- ANTHROPIC
      have hkv' : (mkApiKeyVars cfg.vendors)[i]?.getD (ApiKeyVars.single "") =
          ApiKeyVars.single "ANTHROPIC_API_KEY" := hkvE.trans rfl
      rw [show keyVarsFor "ANTHROPIC" = ApiKeyVars.single "ANTHROPIC_API_KEY" from rfl] at hcheck
      dsimp only at hcheck
      by_cases hc : envTruthy sess.env "ANTHROPIC_API_KEY" = false ∨
          sess.sources.getD i "unset" = "unset"
      · rw [if_pos hc] at hcheck; simp at hcheck
      · push_neg at hc
        have ht : envTruthy sess.env "ANTHROPIC_API_KEY" = true := by
          cases h' : envTruthy sess.env "ANTHROPIC_API_KEY" with
          | true => rfl
          | false => exact absurd h' hc.1
        obtain ⟨k, hek, hkne⟩ := (envTruthy_true_iff sess.env "ANTHROPIC_API_KEY").mp ht
        refine ⟨k, hkne, ?_⟩
        simp [buildMainModelArgs, hi, hkv', hfE, hek, hkne, credFlagEncoding]
    · -- OPENAI
      have hkv' : (mkApiKeyVars cfg.vendors)[i]?.getD (ApiKeyVars.single "") =
          ApiKeyVars.single "OPENAI_API_KEY" := hkvE.trans rfl
      rw [show keyVarsFor "OPENAI" = ApiKeyVars.single "OPENAI_API_KEY" from rfl] at hcheck
      dsimp only at hcheck
      by_cases hc : envTruthy sess.env "OPENAI_API_KEY" = false ∨
          sess.sources.getD i "unset" = "unset"
      · rw [if_pos hc] at hcheck; simp at hcheck
      · push_neg at hc
        have ht : envTruthy sess.env "OPENAI_API_KEY" = true := by
          cases h' : envTruthy sess.env "OPENAI_API_KEY" with
          | true => rfl
          | false => exact absurd h' hc.1
        obtain ⟨k, hek, hkne⟩ := (envTruthy_true_iff sess.env "OPENAI_API_KEY").mp ht
        refine ⟨k, hkne, ?_⟩
        simp [buildMainModelArgs, hi, hkv', hfE, hek, hkne, credFlagEncoding]
    · -- DEEPSEEK
      have hkv' : (mkApiKeyVars cfg.vendors)[i]?.getD (ApiKeyVars.single "") =
          ApiKeyVars.single "DEEPSEEK_API_KEY" := hkvE.trans rfl
      rw [show keyVarsFor "DEEPSEEK" = ApiKeyVars.single "DEEPSEEK_API_KEY" from rfl] at hcheck
      dsimp only at hcheck
      by_cases hc : envTruthy sess.env "DEEPSEEK_API_KEY" = false ∨
          sess.sources.getD i "unset" = "unset"
      · rw [if_pos hc] at hcheck; simp at hcheck
      · push_neg at hc
        have ht : envTruthy sess.env "DEEPSEEK_API_KEY" = true := by
          cases h' : envTruthy sess.env "DEEPSEEK_API_KEY" with
          | true => rfl
          | false => exact absurd h' hc.1
        obtain ⟨k, hek, hkne⟩ := (envTruthy_true_iff sess.env "DEEPSEEK_API_KEY").mp ht
        refine ⟨k, hkne, ?_⟩
        simp [buildMainModelArgs, hi, hkv', hfE, hek, hkne, credFlagEncoding]
  · intro he
    have hne : ¬ sess.sources[i]?.getD "unset" = "file" := by
      rw [← List.getD_eq_getElem?_getD, he]
      decide
    simp [buildMainModelArgs, hi, hne]

/-- Witness for C1: the file-sourced ANTHROPIC key produces exactly its
credential flag; the environment-sourced OPENAI key produces none. -/
theorem c1_witness :
    (∃ k, k ≠ "" ∧ buildMainModelArgs cfgEx sessEx "ANTHROPIC" "claude-3-5" =
        ["--model", "claude-3-5"] ++ credFlagEncoding "ANTHROPIC" k) ∧
    buildMainModelArgs cfgEx sessEx "OPENAI" "gpt-4o" = ["--model", "gpt-4o"] :=
  ⟨(c1_main_credential_flag cfgEx sessEx "ANTHROPIC" "claude-3-5" 1 rfl (by decide)
      (by decide)).1 rfl,
   (c1_main_credential_flag cfgEx sessEx "OPENAI" "gpt-4o" 2 rfl (by decide)
      (by decide)).2 rfl⟩

/-! ### Claim C10 -/

lemma codeLoop_step (cfg : Cfg) (sess : Sess) (aE : Bool) (aX : Int) (s : MState) (input : String)
    (h1 : (codeLoopCore s).isSome = true)
    (h2 : (codeLoopCore (machStep cfg sess aE aX s input)).isSome = true) :
    codeLoopCore (machStep cfg sess aE aX s input) = codeLoopCore s := by
  cases s with
  | modeMenu => simp [codeLoopCore] at h1
  | exited c => simp [codeLoopCore] at h1
  | inArch p => cases p <;> simp [codeLoopCore] at h1
  | inCode p =>
    cases p with
    | vendorSel => simp [codeLoopCore] at h1
    | modelSel mv => simp [codeLoopCore] at h1
    | formatSel mv mm =>
      cases hr : selectEditFormatChoice cfg.codeFormats input with
      | none => simp [machStep, hr, codeLoopCore] at h2
      | some f =>
        by_cases hf : f = "invalid"
        · simp [machStep, hr, hf, codeLoopCore]
        · cases aE with
          | false => simp [machStep, hr, hf, codeLoopCore] at h2
          | true => simp [machStep, hr, hf, codeLoopCore]
    | launchConfirm mv mm fmt =>
      by_cases hA : (if pyStrip input = "" then "1" else pyStrip input) = "1"
      · simp [machStep, hA, codeLoopCore] at h2
      · by_cases hB : (if pyStrip input = "" then "1" else pyStrip input) = "2"
        · simp [machStep, hA, hB, codeLoopCore]
        · by_cases hC : (if pyStrip input = "" then "1" else pyStrip input) = "0"
          · simp [machStep, hA, hB, hC, codeLoopCore] at h2
          · simp [machStep, hA, hB, hC, codeLoopCore]

lemma archLoop_step (cfg : Cfg) (sess : Sess) (aE : Bool) (aX : Int) (s : MState) (input : String)
    (h1 : (archLoopCore s).isSome = true)
    (h2 : (archLoopCore (machStep cfg sess aE aX s input)).isSome = true) :
    archLoopCore (machStep cfg sess aE aX s input) = archLoopCore s := by
  cases s with
  | modeMenu => simp [archLoopCore] at h1
  | exited c => simp [archLoopCore] at h1
  | inCode p => cases p <;> simp [archLoopCore] at h1
  | inArch p =>
    cases p with
    | vendorSel => simp [archLoopCore] at h1
    | modelSel mv => simp [archLoopCore] at h1
    | editorVendorSel mv mm => simp [archLoopCore] at h1
    | editorModelSel mv mm ev => simp [archLoopCore] at h1
    | formatSel mv mm ev em =>
      cases hr : selectEditFormatChoice cfg.archFormats input with
      | none => simp [machStep, hr, archLoopCore] at h2
      | some f =>
        by_cases hf : f = "invalid"
        · simp [machStep, hr, hf, archLoopCore]
        · cases aE with
          | false => simp [machStep, hr, hf, archLoopCore] at h2
          | true => simp [machStep, hr, hf, archLoopCore]
    | launchConfirm mv mm ev em fmt =>
      by_cases hA : (if pyStrip input = "" then "1" else pyStrip input) = "1"
      · simp [machStep, hA, archLoopCore] at h2
      · by_cases hB : (if pyStrip input = "" then "1" else pyStrip input) = "2"
        · simp [machStep, hA, hB, archLoopCore]
        · by_cases hC : (if pyStrip input = "" then "1" else pyStrip input) = "0"
          · simp [machStep, hA, hB, hC, archLoopCore] at h2
          · simp [machStep, hA, hB, hC, archLoopCore]

lemma self_mem_machTraceStates (cfg : Cfg) (sess : Sess) (aE : Bool) (aX : Int)
    (s : MState) (inputs : List String) :
    s ∈ machTraceStates cfg sess aE aX s inputs := by
  cases inputs <;> simp [machTraceStates]

/-- Claim C10 (confirmed): as long as the operator stays inside the
format-selection/launch-confirmation loop (every visited state is a format
or launch-confirmation state of the same mode), the main vendor and main
model — and in architect mode also the editor vendor and editor model —
recorded in the state are unchanged after any sequence of inputs; only the
selected edit format can change across iterations. -/
theorem c10_format_loop_frame :
    (∀ (cfg : Cfg) (sess : Sess) (aE : Bool) (aX : Int) (inputs : List String) (s : MState),
      (∀ s' ∈ machTraceStates cfg sess aE aX s inputs, (codeLoopCore s').isSome = true) →
      codeLoopCore (machRun cfg sess aE aX s inputs) = codeLoopCore s) ∧
    (∀ (cfg : Cfg) (sess : Sess) (aE : Bool) (aX : Int) (inputs : List String) (s : MState),
      (∀ s' ∈ machTraceStates cfg sess aE aX s inputs, (archLoopCore s').isSome = true) →
      archLoopCore (machRun cfg sess aE aX s inputs) = archLoopCore s) := by
  constructor
  · intro cfg sess aE aX inputs
    induction inputs with
    | nil =>
      intro s h
      simp [machRun]
    | cons i rest ih =>
      intro s h
      have hcons : machTraceStates cfg sess aE aX s (i :: rest) =
          s :: machTraceStates cfg sess aE aX (machStep cfg sess aE aX s i) rest := rfl
      have h1 : (codeLoopCore s).isSome = true := h s (by rw [hcons]; exact List.mem_cons_self s _)
      have h2 : (codeLoopCore (machStep cfg sess aE aX s i)).isSome = true :=
        h _ (by rw [hcons]; exact List.mem_cons_of_mem s (self_mem_machTraceStates cfg sess aE aX _ rest))
      have hrest : ∀ s' ∈ machTraceStates cfg sess aE aX (machStep cfg sess aE aX s i) rest,
          (codeLoopCore s').isSome = true := by
        intro s' hs'
        exact h s' (by rw [hcons]; exact List.mem_cons_of_mem s hs')
      calc codeLoopCore (machRun cfg sess aE aX s (i :: rest))
          = codeLoopCore (machRun cfg sess aE aX (machStep cfg sess aE aX s i) rest) := rfl
        _ = codeLoopCore (machStep cfg sess aE aX s i) := ih _ hrest
        _ = codeLoopCore s := codeLoop_step cfg sess aE aX s i h1 h2
  · intro cfg sess aE aX inputs
    induction inputs with
    | nil =>
      intro s h
      simp [machRun]
    | cons i rest ih =>
      intro s h
      have hcons : machTraceStates cfg sess aE aX s (i :: rest) =
          s :: machTraceStates cfg sess aE aX (machStep cfg sess aE aX s i) rest := rfl
      have h1 : (archLoopCore s).isSome = true := h s (by rw [hcons]; exact List.mem_cons_self s _)
      have h2 : (archLoopCore (machStep cfg sess aE aX s i)).isSome = true :=
        h _ (by rw [hcons]; exact List.mem_cons_of_mem s (self_mem_machTraceStates cfg sess aE aX _ rest))
      have hrest : ∀ s' ∈ machTraceStates cfg sess aE aX (machStep cfg sess aE aX s i) rest,
          (archLoopCore s').isSome = true := by
        intro s' hs'
        exact h s' (by rw [hcons]; exact List.mem_cons_of_mem s hs')
      calc archLoopCore (machRun cfg sess aE aX s (i :: rest))
          = archLoopCore (machRun cfg sess aE aX (machStep cfg sess aE aX s i) rest) := rfl
        _ = archLoopCore (machStep cfg sess aE aX s i) := ih _ hrest
        _ = archLoopCore s := archLoop_step cfg sess aE aX s i h1 h2

/-- Witness for C10: a concrete run that picks a format, backs out of the
launch confirmation into format selection again, and picks another format,
leaving the main/editor vendor and model fields unchanged. -/
theorem c10_witness :
    codeLoopCore (machRun cfgEx sessEx true 0
        (MState.inCode (CodePhase.formatSel "ANTHROPIC" "claude-3-5")) ["3", "2", "2"]) =
      codeLoopCore (MState.inCode (CodePhase.formatSel "ANTHROPIC" "claude-3-5")) ∧
    archLoopCore (machRun cfgEx sessEx true 0
        (MState.inArch (ArchPhase.formatSel "ANTHROPIC" "claude-3-5" "OPENAI" "gpt-4o")) ["3", "2", "2"]) =
      archLoopCore (MState.inArch (ArchPhase.formatSel "ANTHROPIC" "claude-3-5" "OPENAI" "gpt-4o")) :=
  ⟨c10_format_loop_frame.1 cfgEx sessEx true 0 ["3", "2", "2"]
      (MState.inCode (CodePhase.formatSel "ANTHROPIC" "claude-3-5")) (by decide),
   c10_format_loop_frame.2 cfgEx sessEx true 0 ["3", "2", "2"]
      (MState.inArch (ArchPhase.formatSel "ANTHROPIC" "claude-3-5" "OPENAI" "gpt-4o")) (by decide)⟩

end RunAider
